import Mathlib

/-!
Verification of the session-token / authorization workflow of the RepoView
backend (`apps/backend/api/index.py`).

The Flask handlers (`authorize`, `callback`, the `auth_wrapper` decorator,
`check_authorization`, `get_repo`) are embedded as pure Lean functions.
External collaborators are modelled:
* the `itsdangerous` signed-token codec (`serializer.dumps` / `serializer.loads`)
  is modelled from the spec as a tamper-evident, time-limited token carrying an
  identifier and an issue timestamp;
* the AWS Secrets Manager client is modelled as an association list with
  `create_secret` / `get_secret_value` / `put_secret_value` operations;
* outbound HTTP calls (`requests.post` / `requests.get`) are oracle parameters
  describing the outcome of the external call.

Nondeterministic inputs of the real code (the random UUID, the current time,
the incoming request data) are explicit parameters.
-/

namespace RepoView

/-! ## Signed token codec (modelled from the spec)

Modelled from the spec: component 4.1 "Signed Token Codec", implemented in the
real system by `itsdangerous.URLSafeTimedSerializer` (an external library, not
part of this repository).  A token is the string
`identifier ++ "|" ++ enc(timestamp) ++ "|" ++ enc(MAC(secret, payload))`
where `payload` is everything before the last separator; `verify` re-computes
the MAC over the payload bytes, compares, and then checks the embedded
timestamp against `max_age`, exactly as the spec describes: "fails with
`Expired` if the embedded timestamp is older than `max_age`; fails with
`Invalid` if the signature does not match recomputed signature over the
payload.  Succeeds returning the original identifier only if both checks
pass."  The MAC is modelled as an injective keyed encoding of the payload
bytes into a natural number, rendered with the digit alphabet `a`–`d` (so MAC
and timestamp renderings never contain the separator). -/

/-- Digit character for bijective base-4 rendering (alphabet `a`–`d`). -/
def b4digit (d : Nat) : Char :=
  if d = 0 then 'a' else if d = 1 then 'b' else if d = 2 then 'c' else 'd'

/-- Numeric value of a base-4 digit character (inverse of `b4digit`). -/
def b4val (c : Char) : Nat :=
  if c = 'a' then 0 else if c = 'b' then 1 else if c = 'c' then 2 else 3

/-- Decode a bijective base-4 digit string (little-endian). -/
def b4dec : List Char → Nat
  | [] => 0
  | c :: r => b4val c + 1 + 4 * b4dec r

/-- Render a natural in bijective base-4 (little-endian); `fuel` bounds the
recursion and any `fuel ≥ n` yields the canonical rendering. -/
def natB4Aux : Nat → Nat → List Char
  | 0, _ => []
  | _ + 1, 0 => []
  | f + 1, n + 1 => b4digit (n % 4) :: natB4Aux f (n / 4)

/-- Canonical bijective base-4 rendering of a natural number. -/
def natB4 (n : Nat) : List Char := natB4Aux n n

/-- Injective encoding of a list of naturals as a natural. -/
def natListEnc : List Nat → Nat
  | [] => 0
  | h :: t => Nat.pair h (natListEnc t) + 1

/-- Injective encoding of a string as a natural number. -/
def strEnc (s : String) : Nat := natListEnc (s.data.map Char.toNat)

/-- Modelled from the spec: the keyed MAC over the token payload bytes
("signature(payload)" with a shared secret). -/
def macChars (secret : String) (payload : List Char) : Nat :=
  Nat.pair (strEnc secret) (natListEnc (payload.map Char.toNat))

/-- Modelled from the spec: `mint(identifier)` / `serializer.dumps` —
"deterministically encodes identifier + current time into a token whose
authenticity and freshness can later be verified with a shared secret". -/
def mint (secret ident : String) (ts : Nat) : String :=
  let payload := ident.data ++ '|' :: natB4 ts
  ⟨payload ++ '|' :: natB4 (macChars secret payload)⟩

/-- Failure modes of token verification (`SignatureExpired` / `BadSignature`
in `itsdangerous`). -/
inductive TokenErr where
  | expired
  | invalidSignature
deriving DecidableEq, Repr

/-- Split a character list at the first occurrence of `sep`, returning the
part before and the part after. -/
def splitFirst (sep : Char) : List Char → Option (List Char × List Char)
  | [] => none
  | c :: rest =>
    if c = sep then some ([], rest)
    else
      match splitFirst sep rest with
      | none => none
      | some (a, b) => some (c :: a, b)

/-- Split a token into its (reversed) signature, timestamp and identifier
parts, cutting at the last two separators. -/
def tokenParts (token : String) : Option (List Char × List Char × List Char) :=
  (splitFirst '|' token.data.reverse).bind fun p =>
    (splitFirst '|' p.2).map fun q => (p.1, q.1, q.2)

/-- Modelled from the spec: `verify(token, max_age)` / `serializer.loads` —
splits the token at the last two separators (signature, then timestamp, the
rest being the identifier), recomputes the MAC over the payload bytes and
compares it with the embedded signature, then checks the embedded timestamp
against `max_age`.  The signature is checked first, as in `itsdangerous`. -/
def verify (secret : String) (maxAge now : Nat) (token : String) :
    Except TokenErr String :=
  match tokenParts token with
  | none => .error .invalidSignature
  | some (sigRev, tsRev, identRev) =>
    let payload := identRev.reverse ++ '|' :: tsRev.reverse
    if sigRev.reverse = natB4 (macChars secret payload) then
      if maxAge < now - b4dec tsRev.reverse then .error .expired
      else .ok ⟨identRev.reverse⟩
    else .error .invalidSignature

/-! ## Secret store (modelled from the spec)

Modelled from the spec: component 4.2 "Secret Store Client", a thin
pass-through to AWS Secrets Manager (external service).  The store is an
association list from secret name to `SecretString` value; operations return
`Except` with the AWS error condition as a message, mirroring the `boto3`
client used by the source. -/

/-- The secret store: an association list from secret name to value. -/
abbrev Store := List (String × String)

/-- Value of the record stored under key `k`, if any. -/
def Store.lookup : Store → String → Option String
  | [], _ => none
  | (k', v) :: st, k => if k' = k then some v else Store.lookup st k

/-- Overwrite the value of the record stored under key `k`. -/
def Store.set : Store → String → String → Store
  | [], _, _ => []
  | (k', v) :: st, k, w =>
    if k' = k then (k, w) :: Store.set st k w else (k', v) :: Store.set st k w

/-- Modelled from the spec: `create(key, initial_value)` /
`aws_client.create_secret` — fails on a duplicate key (AWS
`ResourceExistsException`), otherwise adds the record. -/
def createSecret (st : Store) (k v : String) : Except String Store :=
  match Store.lookup st k with
  | some _ => .error "ResourceExistsException"
  | none => .ok ((k, v) :: st)

/-- Response of `get_secret_value`: the handlers test membership of the
`SecretString` field, so the field is an `Option`. -/
structure GetSecretResponse where
  secretString : Option String
deriving DecidableEq, Repr

/-- Modelled from the spec: `get(key)` / `aws_client.get_secret_value` —
fails when no record exists (AWS `ResourceNotFoundException`). -/
def getSecretValue (st : Store) (k : String) : Except String GetSecretResponse :=
  match Store.lookup st k with
  | none => .error "ResourceNotFoundException"
  | some v => .ok ⟨some v⟩

/-- Modelled from the spec: `put(key, value)` / `aws_client.put_secret_value`.
The handler passes `response.json().get("access_token")`, which may be `None`;
`boto3` rejects a `None` `SecretString` client-side with a parameter
validation error, modelled by the `none` branch.  A put against an absent key
fails (AWS `ResourceNotFoundException`); otherwise the value is overwritten. -/
def putSecretValue (st : Store) (k : String) (v : Option String) :
    Except String Store :=
  match v with
  | none => .error "Parameter validation failed: Invalid type for parameter SecretString"
  | some s =>
    match Store.lookup st k with
    | none => .error "ResourceNotFoundException"
    | some _ => .ok (Store.set st k s)

/-! ## Handlers (embedded from `apps/backend/api/index.py`) -/

/-- Process configuration, read from the environment at startup.
`callbackUrl` is the value of the `ENV`-dependent expression
`url_for("callback", _external=True) if production else
"http://localhost:8080/callback"` computed by the handlers. -/
structure Config where
  secretKey : String
  githubClientId : String
  githubClientSecret : String
  callbackUrl : String

/-- An HTTP error response produced by `abort(status, msg)`. -/
structure Err where
  status : Nat
  msg : String
deriving DecidableEq, Repr

/-- Body of a successful `POST /authorize` response
(`jsonify({"redirect_url": ..., "session_id": ...})`). -/
structure AuthorizeOk where
  redirect_url : String
  session_id : String
deriving DecidableEq, Repr

/-- `urllib.parse.quote` applied to the callback URL when building the GitHub
authorization URL.  Percent-encoding details are irrelevant to every claim, so
the encoding itself is not modelled. -/
def urlquote (s : String) : String := s

/-- `POST /authorize` (`authorize` in `index.py`): mints a session id from a
fresh UUID, creates the secret record with the sentinel value `"null"`, and
returns the GitHub authorization URL (with the session id as `state`) plus the
session id.  `uuid` and `now` stand for `str(uuid4())` and the current time. -/
def authorize (cfg : Config) (uuid : String) (now : Nat) (st : Store) :
    Except Err AuthorizeOk × Store :=
  let session_id := mint cfg.secretKey uuid now
  match createSecret st session_id "null" with
  | .error e => (.error ⟨500, "AWS Secret creation failed - " ++ e⟩, st)
  | .ok st' =>
    let github_auth_url :=
      "https://github.com/login/oauth/authorize?client_id=" ++ cfg.githubClientId
        ++ "&redirect_uri=" ++ urlquote cfg.callbackUrl
        ++ "&scope=public_repo&state=" ++ session_id
    (.ok ⟨github_auth_url, session_id⟩, st')

/-- `GET /callback` (`callback` in `index.py`).  `state` and `code` are the
query parameters, with `request.args.get(..., "")` folding an absent parameter
into `""`.  `exchange` is the oracle for the outcome of the
`requests.post("https://github.com/login/oauth/access_token", ...)` call as a
function of `code`: `.error e` is a raised transport exception and
`.ok tok?` a response whose JSON carries `tok? = json.get("access_token")`.
The result of `serializer.loads(state, max_age=600)` is discarded, exactly as
in the source; the secret lookup and update use the raw `state` string as
`SecretId`. -/
def callback (cfg : Config) (now : Nat) (state code : String)
    (exchange : String → Except String (Option String)) (st : Store) :
    Except Err String × Store :=
  if state = "" ∨ code = "" then (.error ⟨400, "Missing state or code"⟩, st)
  else
    match verify cfg.secretKey 600 now state with
    | .error _ => (.error ⟨401, "Invalid or expired state"⟩, st)
    | .ok _ =>
      match getSecretValue st state with
      | .error e => (.error ⟨401, "Unauthorized: AWS Secret fetch failed - " ++ e⟩, st)
      | .ok session_secret =>
        match session_secret.secretString with
        | none => (.error ⟨401, "Invalid state"⟩, st)
        | some _ =>
          match exchange code with
          | .error e => (.error ⟨401, "GitHub access token fetch failed - " ++ e⟩, st)
          | .ok access_token =>
            match putSecretValue st state access_token with
            | .error e => (.error ⟨500, "AWS Secret update failed - " ++ e⟩, st)
            | .ok st' =>
              (.ok "Authorization complete. Feel free to return to VSCode.", st')

/-- Second space-separated segment of a character list: the model of
`auth_header.split(" ")[1]` (the part between the first space and the next
space, or to the end).  Under the `"Bearer "`-prefix guard a first space
always exists, so the `none` fallback is unreachable there. -/
def secondSegment (l : List Char) : List Char :=
  match splitFirst ' ' l with
  | none => []
  | some (_, rest) =>
    match splitFirst ' ' rest with
    | none => rest
    | some (a, _) => a

/-- Tail of the `auth_wrapper` verification after the session id has been
extracted: looks the id up in the store and rejects an absent record, a
missing `SecretString`, or the sentinel / empty value. -/
def resolveSession (st : Store) (session_id : String) : Except Err String :=
  match getSecretValue st session_id with
  | .error e => .error ⟨401, "Unauthorized: AWS Secret fetch failed - " ++ e⟩
  | .ok session_secret =>
    match session_secret.secretString with
    | none => .error ⟨401, "Unauthorized: SecretString not found"⟩
    | some access_token =>
      if access_token = "" ∨ access_token = "null" then
        .error ⟨401, "Unauthorized: access_token not found"⟩
      else .ok access_token

/-- The Verify step (`auth_wrapper` in `index.py`): requires an
`Authorization` header starting with `"Bearer "` (an absent or empty header
fails the same test, as `not auth_header or not auth_header.startswith(...)`
does), takes the second space-separated segment as session id, and resolves it
through the store.  On success the resolved access token is returned (the
value placed into `g.access_token`). -/
def authCheck (st : Store) (authHeader : Option String) : Except Err String :=
  match authHeader with
  | none => .error ⟨401, "Authorization header not found"⟩
  | some h =>
    if ("Bearer ".data.isPrefixOf h.data : Bool) then
      resolveSession st ⟨secondSegment h.data⟩
    else .error ⟨401, "Authorization header not found"⟩

/-- `GET /check-authorization` (`check_authorization` in `index.py`). -/
def check_authorization (st : Store) (authHeader : Option String) :
    Except Err String :=
  match authCheck st authHeader with
  | .error e => .error e
  | .ok _ => .ok "Success"

/-- Oracle for the two outbound GitHub API calls of `get_repo`.  `repoGet`
models the unauthenticated `requests.get` on the repository-info URL,
returning `json.get` of the `default_branch` field (`none` when the field is
absent, raising `KeyError` in the source); `branchGet` models the
authenticated `requests.get` (second argument: the `Authorization` header
value sent) on the branch-info URL, returning the `commit.sha` field. -/
structure GithubApi where
  repoGet : String → Except String (Option String)
  branchGet : String → String → Except String (Option String)

/-- `GET /repos/{owner}/{repo}/files` (`get_repo` in `index.py`), after the
`auth_wrapper` decorator: resolves the session, discovers the default branch
with an unauthenticated call, fetches the branch info with the resolved access
token as bearer, and returns the tip commit sha as the body.  A raised
exception or a missing JSON field aborts with status 500 and the underlying
error message (`str(e)` of the exception / `KeyError`). -/
def get_repo (api : GithubApi) (st : Store) (authHeader : Option String)
    (owner repo : String) : Except Err String :=
  match authCheck st authHeader with
  | .error e => .error e
  | .ok access_token =>
    let headers := "Bearer " ++ access_token
    match api.repoGet ("https://api.github.com/repos/" ++ owner ++ "/" ++ repo) with
    | .error e => .error ⟨500, "GitHub repo fetch failed - " ++ e⟩
    | .ok none => .error ⟨500, "GitHub repo fetch failed - KeyError: default_branch"⟩
    | .ok (some default_branch) =>
      match api.branchGet
          ("https://api.github.com/repos/" ++ owner ++ "/" ++ repo
            ++ "/branches/" ++ default_branch) headers with
      | .error e => .error ⟨500, "GitHub repo fetch failed - " ++ e⟩
      | .ok none => .error ⟨500, "GitHub repo fetch failed - KeyError: commit"⟩
      | .ok (some commit_sha) => .ok commit_sha

/-! ## The flow as a transition system (for the store invariants) -/

/-- One request against the service, with its nondeterministic inputs. -/
inductive Op where
  | authorizeOp (uuid : String) (now : Nat)
  | callbackOp (now : Nat) (state code : String)
      (exchange : String → Except String (Option String))
  | checkOp (authHeader : Option String)

/-- Store after handling one request. -/
def stepStore (cfg : Config) (st : Store) : Op → Store
  | .authorizeOp uuid now => (authorize cfg uuid now st).2
  | .callbackOp now state code exchange => (callback cfg now state code exchange st).2
  | .checkOp _ => st

/-- Store after handling a sequence of requests. -/
def runOps (cfg : Config) (st : Store) (ops : List Op) : Store :=
  ops.foldl (stepStore cfg) st

/-- A token is correctly signed when its signature part equals the MAC
recomputed over its payload bytes with the shared secret. -/
def correctlySigned (secret : String) (token : String) : Prop :=
  ∃ payload : List Char, token.data = payload ++ '|' :: natB4 (macChars secret payload)

/-! ## Concrete fixtures used by witnesses and counterexamples -/

/-- A concrete configuration (development mode). -/
def cfg0 : Config := ⟨"k", "cid", "csec", "http://localhost:8080/callback"⟩

/-- The session id minted for UUID `"u"` at time `0` under secret `"k"`. -/
def sid0 : String := mint "k" "u" 0

/-- Exchange oracle: transport succeeds, response carries no access token. -/
def exNone : String → Except String (Option String) := fun _ => .ok none

/-- Exchange oracle: transport error. -/
def exErr : String → Except String (Option String) := fun _ => .error "boom"

/-- Exchange oracle: transport succeeds with access token `"tok1"`. -/
def exTok1 : String → Except String (Option String) := fun _ => .ok (some "tok1")

/-- Exchange oracle: transport succeeds with access token `"tok2"`. -/
def exTok2 : String → Except String (Option String) := fun _ => .ok (some "tok2")

/-- Exchange oracle: transport succeeds with access token `"tok123"`. -/
def exTok123 : String → Except String (Option String) := fun _ => .ok (some "tok123")

/-- A stubbed GitHub API: `default_branch` is `"main"`, commit sha `"abc123"`. -/
def stubApi : GithubApi :=
  ⟨fun _ => .ok (some "main"), fun _ _ => .ok (some "abc123")⟩

/-- The redirect URL produced by `authorize` under `cfg0` for session `sid0`. -/
def w9url : String :=
  "https://github.com/login/oauth/authorize?client_id=" ++ cfg0.githubClientId
    ++ "&redirect_uri=" ++ urlquote cfg0.callbackUrl
    ++ "&scope=public_repo&state=" ++ sid0

/-- The `POST /authorize` response body under `cfg0` for UUID `"u"`, time `0`. -/
def w9r : AuthorizeOk := ⟨w9url, sid0⟩


/-! ## Helper lemmas: splitting and base-4 rendering -/

theorem reverse_append_cons (a b : List Char) (c : Char) :
    (a ++ c :: b).reverse = b.reverse ++ c :: a.reverse := by
  simp [List.reverse_append]

theorem splitFirst_append (sep : Char) (a b : List Char) (h : sep ∉ a) :
    splitFirst sep (a ++ sep :: b) = some (a, b) := by
  induction a with
  | nil => simp [splitFirst]
  | cons c a ih =>
    have hc : c ≠ sep := fun hc => h (hc ▸ List.mem_cons_self c a)
    have ha : sep ∉ a := fun ha => h (List.mem_cons_of_mem c ha)
    simp [splitFirst, hc, ih ha]

theorem splitFirst_eq_none (sep : Char) (l : List Char) (h : sep ∉ l) :
    splitFirst sep l = none := by
  induction l with
  | nil => rfl
  | cons c l ih =>
    have hc : c ≠ sep := fun hc => h (hc ▸ List.mem_cons_self c l)
    have hl : sep ∉ l := fun hl => h (List.mem_cons_of_mem c hl)
    simp [splitFirst, hc, ih hl]

theorem splitFirst_eq_some (sep : Char) {l a b : List Char}
    (h : splitFirst sep l = some (a, b)) : l = a ++ sep :: b := by
  induction l generalizing a b with
  | nil => simp [splitFirst] at h
  | cons c l ih =>
    by_cases hc : c = sep
    · subst hc
      simp [splitFirst] at h
      obtain ⟨ha, hb⟩ := h
      subst ha; subst hb; rfl
    · simp only [splitFirst, if_neg hc] at h
      cases hm : splitFirst sep l with
      | none => rw [hm] at h; simp at h
      | some p =>
        obtain ⟨a', b'⟩ := p
        rw [hm] at h
        simp at h
        obtain ⟨ha, hb⟩ := h
        subst hb
        rw [← ha, ih hm]
        rfl

theorem b4digit_mem (d : Nat) :
    b4digit d = 'a' ∨ b4digit d = 'b' ∨ b4digit d = 'c' ∨ b4digit d = 'd' := by
  unfold b4digit
  split
  · exact Or.inl rfl
  split
  · exact Or.inr (Or.inl rfl)
  split
  · exact Or.inr (Or.inr (Or.inl rfl))
  · exact Or.inr (Or.inr (Or.inr rfl))

theorem mem_natB4Aux {f n : Nat} {c : Char} (h : c ∈ natB4Aux f n) :
    c = 'a' ∨ c = 'b' ∨ c = 'c' ∨ c = 'd' := by
  induction f generalizing n with
  | zero => simp [natB4Aux] at h
  | succ f ih =>
    cases n with
    | zero => simp [natB4Aux] at h
    | succ m =>
      simp only [natB4Aux, List.mem_cons] at h
      rcases h with h | h
      · exact h ▸ b4digit_mem (m % 4)
      · exact ih h

theorem bar_not_mem_natB4 (n : Nat) : '|' ∉ natB4 n := by
  intro h
  rcases mem_natB4Aux h with h | h | h | h <;> simp at h

theorem space_not_mem_natB4 (n : Nat) : ' ' ∉ natB4 n := by
  intro h
  rcases mem_natB4Aux h with h | h | h | h <;> simp at h

theorem b4val_b4digit {d : Nat} (h : d < 4) : b4val (b4digit d) = d := by
  interval_cases d <;> rfl

theorem b4dec_natB4Aux {f n : Nat} (h : n ≤ f) : b4dec (natB4Aux f n) = n := by
  induction f generalizing n with
  | zero =>
    have hn : n = 0 := Nat.le_zero.mp h
    subst hn; rfl
  | succ f ih =>
    cases n with
    | zero => rfl
    | succ m =>
      have hm : m / 4 ≤ f := le_trans (Nat.div_le_self m 4) (Nat.le_of_succ_le_succ h)
      have h4 : m % 4 < 4 := Nat.mod_lt m (by decide)
      simp only [natB4Aux, b4dec, ih hm, b4val_b4digit h4]
      omega

theorem b4dec_natB4 (n : Nat) : b4dec (natB4 n) = n := b4dec_natB4Aux le_rfl

/-! ## Helper lemmas: the token codec -/

theorem tokenParts_mint (secret ident : String) (ts : Nat) :
    tokenParts (mint secret ident ts) =
      some ((natB4 (macChars secret (ident.data ++ '|' :: natB4 ts))).reverse,
        (natB4 ts).reverse, ident.data.reverse) := by
  have hsig : '|' ∉ (natB4 (macChars secret (ident.data ++ '|' :: natB4 ts))).reverse :=
    fun h => bar_not_mem_natB4 _ (List.mem_reverse.mp h)
  have hts : '|' ∉ (natB4 ts).reverse :=
    fun h => bar_not_mem_natB4 _ (List.mem_reverse.mp h)
  have hdata : (mint secret ident ts).data =
      (ident.data ++ '|' :: natB4 ts) ++ '|' :: natB4 (macChars secret (ident.data ++ '|' :: natB4 ts)) := rfl
  unfold tokenParts
  rw [hdata, reverse_append_cons, splitFirst_append _ _ _ hsig]
  simp only [Option.some_bind]
  rw [reverse_append_cons, splitFirst_append _ _ _ hts]
  rfl

theorem verify_mint (secret ident : String) (ts maxAge now : Nat) :
    verify secret maxAge now (mint secret ident ts) =
      if maxAge < now - ts then .error .expired else .ok ident := by
  simp only [verify, tokenParts_mint, List.reverse_reverse, b4dec_natB4, if_pos rfl]
  rfl

theorem verify_mint_fresh (secret ident : String) (ts maxAge now : Nat)
    (h : now - ts ≤ maxAge) :
    verify secret maxAge now (mint secret ident ts) = .ok ident := by
  rw [verify_mint, if_neg (by omega)]

theorem tokenParts_eq_some {token : String} {sC tC iC : List Char}
    (h : tokenParts token = some (sC, tC, iC)) :
    token.data = iC.reverse ++ '|' :: tC.reverse ++ '|' :: sC.reverse := by
  unfold tokenParts at h
  rw [Option.bind_eq_some] at h
  obtain ⟨⟨sigRev, rest⟩, h1, h2⟩ := h
  rw [Option.map_eq_some'] at h2
  obtain ⟨⟨tsRev, identRev⟩, h3, h4⟩ := h2
  simp only at h3 h4
  injection h4 with e1 h4
  injection h4 with e2 e3
  subst e1; subst e2; subst e3
  have htok : token.data.reverse = sigRev ++ '|' :: rest := splitFirst_eq_some '|' h1
  have hrest : rest = tsRev ++ '|' :: identRev := splitFirst_eq_some '|' h3
  have hh : token.data = (token.data.reverse).reverse := (List.reverse_reverse _).symm
  rw [hh, htok, hrest, reverse_append_cons, reverse_append_cons]

theorem verify_not_signed (secret : String) (maxAge now : Nat) (token : String)
    (h : ¬ correctlySigned secret token) :
    verify secret maxAge now token = .error .invalidSignature := by
  unfold verify
  cases hp : tokenParts token with
  | none => rfl
  | some p =>
    obtain ⟨sigRev, tsRev, identRev⟩ := p
    simp only
    rw [if_neg]
    intro heq
    apply h
    refine ⟨identRev.reverse ++ '|' :: tsRev.reverse, ?_⟩
    have := tokenParts_eq_some hp
    rw [this, ← heq]

theorem mint_ne_ident (secret ident : String) (ts : Nat) :
    mint secret ident ts ≠ ident := by
  intro h
  have hd := congrArg (fun s => s.data.length) h
  simp only [mint, List.length_append, List.length_cons] at hd
  omega

theorem mint_ne_empty (secret ident : String) (ts : Nat) :
    mint secret ident ts ≠ "" := by
  intro h
  have hd := congrArg String.data h
  simp [mint] at hd

theorem space_not_mem_mint (secret ident : String) (ts : Nat)
    (h : ' ' ∉ ident.data) : ' ' ∉ (mint secret ident ts).data := by
  intro hm
  simp only [mint, List.mem_append, List.mem_cons] at hm
  rcases hm with (h1 | h1 | h1) | h1 | h1
  · exact h h1
  · simp at h1
  · exact space_not_mem_natB4 _ h1
  · simp at h1
  · exact space_not_mem_natB4 _ h1

/-! ## Helper lemmas: the store -/

theorem Store.lookup_cons_self (k v : String) (st : Store) :
    Store.lookup ((k, v) :: st) k = some v := by
  simp [Store.lookup]

theorem Store.lookup_cons_ne {k' k : String} (v : String) (st : Store)
    (h : k' ≠ k) : Store.lookup ((k', v) :: st) k = Store.lookup st k := by
  simp [Store.lookup, h]

theorem Store.set_cons_self (k v w : String) (st : Store) :
    Store.set ((k, v) :: st) k w = (k, w) :: Store.set st k w := by
  simp [Store.set]

theorem Store.lookup_set_self {st : Store} {k v : String} (w : String)
    (h : Store.lookup st k = some v) :
    Store.lookup (Store.set st k w) k = some w := by
  induction st with
  | nil => simp [Store.lookup] at h
  | cons p st ih =>
    obtain ⟨k', v'⟩ := p
    by_cases hk : k' = k
    · subst hk
      simp [Store.set, Store.lookup]
    · rw [Store.lookup_cons_ne v' st hk] at h
      simp [Store.set, hk, Store.lookup, ih h]

theorem Store.lookup_set_ne {k k' : String} (st : Store) (w : String)
    (h : k ≠ k') : Store.lookup (Store.set st k' w) k = Store.lookup st k := by
  induction st with
  | nil => rfl
  | cons p st ih =>
    obtain ⟨k'', v''⟩ := p
    by_cases hk : k'' = k'
    · subst hk
      have : k'' ≠ k := fun hc => h hc.symm
      simp [Store.set, Store.lookup, this, ih]
    · simp only [Store.set, if_neg hk, Store.lookup]
      by_cases hk2 : k'' = k
      · simp [hk2]
      · simp [hk2, ih]

/-! ## Helper lemmas: bearer-credential extraction -/

theorem isPrefixOf_append_self (a b : List Char) : a.isPrefixOf (a ++ b) = true := by
  induction a with
  | nil => simp [List.isPrefixOf]
  | cons c a ih => simp [List.isPrefixOf, ih]

theorem bearer_data : "Bearer ".data = "Bearer".data ++ [' '] := by decide

theorem secondSegment_two (sid : List Char) (h : ' ' ∉ sid) :
    secondSegment ("Bearer ".data ++ sid) = sid := by
  have hb : "Bearer ".data ++ sid = "Bearer".data ++ ' ' :: sid := by
    rw [bearer_data, List.append_assoc]; rfl
  have h1 : splitFirst ' ' ("Bearer".data ++ ' ' :: sid) = some ("Bearer".data, sid) :=
    splitFirst_append _ _ _ (by decide)
  have h2 : splitFirst ' ' sid = none := splitFirst_eq_none _ _ h
  rw [hb]
  simp only [secondSegment, h1, h2]

theorem secondSegment_three (sid extra : List Char) (h : ' ' ∉ sid) :
    secondSegment ("Bearer ".data ++ sid ++ ' ' :: extra) = sid := by
  have hb : "Bearer ".data ++ sid ++ ' ' :: extra =
      "Bearer".data ++ ' ' :: (sid ++ ' ' :: extra) := by
    rw [bearer_data]; simp [List.append_assoc]
  have h1 : splitFirst ' ' ("Bearer".data ++ ' ' :: (sid ++ ' ' :: extra)) =
      some ("Bearer".data, sid ++ ' ' :: extra) := splitFirst_append _ _ _ (by decide)
  have h2 : splitFirst ' ' (sid ++ ' ' :: extra) = some (sid, extra) :=
    splitFirst_append _ _ _ h
  rw [hb]
  simp only [secondSegment, h1, h2]

theorem authCheck_bearer (st : Store) (sid : String) (h : ' ' ∉ sid.data) :
    authCheck st (some ("Bearer " ++ sid)) = resolveSession st sid := by
  have hdata : ("Bearer " ++ sid).data = "Bearer ".data ++ sid.data := rfl
  have hpre : ("Bearer ".data.isPrefixOf ("Bearer " ++ sid).data) = true := by
    rw [hdata]; exact isPrefixOf_append_self _ _
  simp only [authCheck, hpre, if_true, hdata, secondSegment_two _ h]
  rw [if_pos (isPrefixOf_append_self _ _)]

theorem authCheck_bearer_extra (st : Store) (sid extra : String) (h : ' ' ∉ sid.data) :
    authCheck st (some ("Bearer " ++ sid ++ " " ++ extra)) = resolveSession st sid := by
  have hdata : ("Bearer " ++ sid ++ " " ++ extra).data =
      "Bearer ".data ++ sid.data ++ ' ' :: extra.data := by
    show (("Bearer ".data ++ sid.data) ++ [' ']) ++ extra.data = _
    simp [List.append_assoc]
  have hdata2 : ("Bearer " ++ sid ++ " " ++ extra).data =
      "Bearer ".data ++ (sid.data ++ ' ' :: extra.data) := by
    rw [hdata, List.append_assoc]
  have hpre : ("Bearer ".data.isPrefixOf ("Bearer " ++ sid ++ " " ++ extra).data) = true := by
    rw [hdata2]; exact isPrefixOf_append_self _ _
  simp only [authCheck, hpre, if_true, hdata, secondSegment_three _ _ h]
  rw [List.append_assoc, if_pos (isPrefixOf_append_self _ _)]

theorem authCheck_bearer_empty (st : Store) :
    authCheck st (some "Bearer ") = resolveSession st "" := by
  have hpre : ("Bearer ".data.isPrefixOf "Bearer ".data) = true := by decide
  have hseg : secondSegment "Bearer ".data = [] := by decide
  simp only [authCheck, hpre, if_true, hseg]

theorem resolveSession_absent {st : Store} {sid : String}
    (h : Store.lookup st sid = none) :
    resolveSession st sid =
      .error ⟨401, "Unauthorized: AWS Secret fetch failed - ResourceNotFoundException"⟩ := by
  simp only [resolveSession, getSecretValue, h]
  rfl

theorem resolveSession_sentinel {st : Store} {sid : String}
    (h : Store.lookup st sid = some "null") :
    resolveSession st sid = .error ⟨401, "Unauthorized: access_token not found"⟩ := by
  simp only [resolveSession, getSecretValue, h]
  rfl

theorem resolveSession_token {st : Store} {sid tok : String}
    (h : Store.lookup st sid = some tok) (h1 : tok ≠ "") (h2 : tok ≠ "null") :
    resolveSession st sid = .ok tok := by
  simp only [resolveSession, getSecretValue, h]
  rw [if_neg (fun hc => hc.elim h1 h2)]

/-! ## Helper lemmas: the handlers -/

theorem authorize_fresh {cfg : Config} {uuid : String} {now : Nat} {st : Store}
    (h : Store.lookup st (mint cfg.secretKey uuid now) = none) :
    authorize cfg uuid now st =
      (.ok ⟨"https://github.com/login/oauth/authorize?client_id=" ++ cfg.githubClientId
          ++ "&redirect_uri=" ++ urlquote cfg.callbackUrl
          ++ "&scope=public_repo&state=" ++ mint cfg.secretKey uuid now,
        mint cfg.secretKey uuid now⟩,
       (mint cfg.secretKey uuid now, "null") :: st) := by
  simp only [authorize, createSecret, h]

theorem authorize_snd (cfg : Config) (uuid : String) (now : Nat) (st : Store) :
    (authorize cfg uuid now st).2 = st ∨
      (Store.lookup st (mint cfg.secretKey uuid now) = none ∧
        (authorize cfg uuid now st).2 = (mint cfg.secretKey uuid now, "null") :: st) := by
  cases h : Store.lookup st (mint cfg.secretKey uuid now) with
  | none => right; exact ⟨rfl, by rw [authorize_fresh h]⟩
  | some v => left; simp only [authorize, createSecret, h]

theorem authorize_ok_inv {cfg : Config} {uuid : String} {now : Nat} {st st' : Store}
    {r : AuthorizeOk} (h : authorize cfg uuid now st = (.ok r, st')) :
    r.session_id = mint cfg.secretKey uuid now ∧
    r.redirect_url = "https://github.com/login/oauth/authorize?client_id="
        ++ cfg.githubClientId ++ "&redirect_uri=" ++ urlquote cfg.callbackUrl
        ++ "&scope=public_repo&state=" ++ r.session_id ∧
    st' = (r.session_id, "null") :: st := by
  cases hl : Store.lookup st (mint cfg.secretKey uuid now) with
  | none =>
    rw [authorize_fresh hl] at h
    injection h with h1 h2
    injection h1 with hr
    subst hr
    subst h2
    exact ⟨rfl, rfl, rfl⟩
  | some v =>
    simp only [authorize, createSecret, hl] at h
    exact absurd h (by simp)

theorem callback_missing {cfg : Config} {now : Nat} {state code : String}
    {ex : String → Except String (Option String)} {st : Store}
    (h : state = "" ∨ code = "") :
    callback cfg now state code ex st = (.error ⟨400, "Missing state or code"⟩, st) := by
  simp only [callback, if_pos h]

theorem callback_invalid {cfg : Config} {now : Nat} {state code : String}
    {ex : String → Except String (Option String)} {st : Store} {e : TokenErr}
    (hs : state ≠ "") (hc : code ≠ "")
    (hv : verify cfg.secretKey 600 now state = .error e) :
    callback cfg now state code ex st = (.error ⟨401, "Invalid or expired state"⟩, st) := by
  simp only [callback, if_neg (fun h : _ ∨ _ => h.elim hs hc), hv]

theorem callback_absent {cfg : Config} {now : Nat} {state code : String}
    {ex : String → Except String (Option String)} {st : Store} {id : String}
    (hs : state ≠ "") (hc : code ≠ "")
    (hv : verify cfg.secretKey 600 now state = .ok id)
    (hl : Store.lookup st state = none) :
    callback cfg now state code ex st =
      (.error ⟨401, "Unauthorized: AWS Secret fetch failed - ResourceNotFoundException"⟩, st) := by
  simp only [callback, if_neg (fun h : _ ∨ _ => h.elim hs hc), hv, getSecretValue, hl]
  rfl

theorem callback_after_verify {cfg : Config} {now : Nat} {state code : String}
    {ex : String → Except String (Option String)} {st : Store} {v id : String}
    (hs : state ≠ "") (hc : code ≠ "")
    (hv : verify cfg.secretKey 600 now state = .ok id)
    (hl : Store.lookup st state = some v) :
    callback cfg now state code ex st =
      match ex code with
      | .error e => (.error ⟨401, "GitHub access token fetch failed - " ++ e⟩, st)
      | .ok none => (.error ⟨500,
          "AWS Secret update failed - Parameter validation failed: Invalid type for parameter SecretString"⟩, st)
      | .ok (some tok) =>
        (.ok "Authorization complete. Feel free to return to VSCode.", Store.set st state tok) := by
  simp only [callback, if_neg (fun h : _ ∨ _ => h.elim hs hc), hv, getSecretValue, hl]
  cases hex : ex code with
  | error e => rfl
  | ok tokOpt =>
    cases tokOpt with
    | none => rfl
    | some tok =>
      simp only [putSecretValue, hl]

theorem callback_snd (cfg : Config) (now : Nat) (state code : String)
    (ex : String → Except String (Option String)) (st : Store) :
    (callback cfg now state code ex st).2 = st ∨
      ∃ tok, ex code = .ok (some tok) ∧ Store.lookup st state ≠ none ∧
        (callback cfg now state code ex st).2 = Store.set st state tok := by
  by_cases hmc : state = "" ∨ code = ""
  · left; rw [callback_missing hmc]
  · push_neg at hmc
    obtain ⟨hs, hc⟩ := hmc
    cases hv : verify cfg.secretKey 600 now state with
    | error e => left; rw [callback_invalid hs hc hv]
    | ok id =>
      cases hl : Store.lookup st state with
      | none => left; rw [callback_absent hs hc hv hl]
      | some v =>
        rw [callback_after_verify hs hc hv hl]
        cases hex : ex code with
        | error e => left; rfl
        | ok tokOpt =>
          cases tokOpt with
          | none => left; rfl
          | some tok => right; exact ⟨tok, rfl, by simp [hl], rfl⟩

/-! ## Helper lemmas: store invariants of the flow -/

theorem authorize_preserves {cfg : Config} {uuid : String} {now : Nat}
    {st : Store} {k v : String} (h : Store.lookup st k = some v) :
    Store.lookup (authorize cfg uuid now st).2 k = some v := by
  rcases authorize_snd cfg uuid now st with h2 | ⟨hfresh, h2⟩ <;> rw [h2]
  · exact h
  · by_cases hk : mint cfg.secretKey uuid now = k
    · subst hk; rw [h] at hfresh; exact absurd hfresh (by simp)
    · rw [Store.lookup_cons_ne _ _ hk]; exact h

theorem callback_preserves_other {cfg : Config} {now : Nat} {state code : String}
    {ex : String → Except String (Option String)} {st : Store} {k v : String}
    (hk : k ≠ state) (h : Store.lookup st k = some v) :
    Store.lookup (callback cfg now state code ex st).2 k = some v := by
  rcases callback_snd cfg now state code ex st with h2 | ⟨tok, _, _, h2⟩ <;> rw [h2]
  · exact h
  · rw [Store.lookup_set_ne _ _ hk]; exact h

theorem stepStore_never_deletes (cfg : Config) (st : Store) (op : Op)
    {k v : String} (h : Store.lookup st k = some v) :
    ∃ w, Store.lookup (stepStore cfg st op) k = some w := by
  cases op with
  | authorizeOp uuid now => exact ⟨v, authorize_preserves h⟩
  | callbackOp now state code ex =>
    by_cases hk : k = state
    · subst hk
      rcases callback_snd cfg now k code ex st with h2 | ⟨tok, _, _, h2⟩ <;>
        rw [stepStore, h2]
      · exact ⟨v, h⟩
      · exact ⟨tok, Store.lookup_set_self _ h⟩
    · exact ⟨v, callback_preserves_other hk h⟩
  | checkOp hd => exact ⟨v, h⟩

/-! ## Claims -/

/-- C1, counterexample.  The claim says the store key equals the identifier
embedded in the signed token (the UUID) and that the callback looks the record
up by the identifier returned by verification.  In the code the store key is
the *whole* signed token: for the session created by `authorize` with UUID
`"u"` at time `0`, the store key is `sid0 = mint "k" "u" 0`, verification of
that token returns `"u"`, and the key differs from `"u"`. -/
theorem C1_counterexample :
    (authorize cfg0 "u" 0 []).2 = [(sid0, "null")] ∧
    verify "k" 600 0 sid0 = .ok "u" ∧
    sid0 ≠ "u" := by
  refine ⟨?_, ?_, ?_⟩
  · exact congrArg Prod.snd (@authorize_fresh cfg0 "u" 0 [] rfl)
  · exact verify_mint_fresh "k" "u" 0 600 0 (by decide)
  · exact mint_ne_ident "k" "u" 0

/-- C1, amended.  The key under which the Secret Record is stored is the full
signed token (the `session_id`), not the identifier embedded in it; the
callback verifies `state`, discards the identifier verification returns, and
looks the record up (and writes it back) under the raw `state` string itself
— which equals the creation key because the client sends the session id back
as `state`.  Stated for a session created on an empty store and a callback at
the issue time with a successful exchange. -/
theorem C1_amended (cfg : Config) (uuid : String) (ts : Nat) (code tok : String)
    (ex : String → Except String (Option String))
    (hc : code ≠ "") (hex : ex code = .ok (some tok)) :
    (authorize cfg uuid ts []).2 = [(mint cfg.secretKey uuid ts, "null")] ∧
    callback cfg ts (mint cfg.secretKey uuid ts) code ex
        [(mint cfg.secretKey uuid ts, "null")] =
      (.ok "Authorization complete. Feel free to return to VSCode.",
        [(mint cfg.secretKey uuid ts, tok)]) ∧
    verify cfg.secretKey 600 ts (mint cfg.secretKey uuid ts) = .ok uuid ∧
    mint cfg.secretKey uuid ts ≠ uuid := by
  have hv : verify cfg.secretKey 600 ts (mint cfg.secretKey uuid ts) = .ok uuid :=
    verify_mint_fresh _ _ _ _ _ (by omega)
  refine ⟨congrArg Prod.snd (@authorize_fresh cfg uuid ts [] rfl), ?_, hv, mint_ne_ident _ _ _⟩
  rw [callback_after_verify (mint_ne_empty _ _ _) hc hv (Store.lookup_cons_self _ _ _),
    hex]
  simp [Store.set]

/-- C1, witness for the amended theorem, at UUID `"u"`, time `0`, code `"c"`,
and an exchange returning `"tok1"`. -/
theorem C1_amended_witness :
    callback cfg0 0 sid0 "c" exTok1 [(sid0, "null")] =
      (.ok "Authorization complete. Feel free to return to VSCode.",
        [(sid0, "tok1")]) ∧
    sid0 ≠ "u" :=
  ⟨(C1_amended cfg0 "u" 0 "c" "tok1" exTok1 (by decide) rfl).2.1,
   (C1_amended cfg0 "u" 0 "c" "tok1" exTok1 (by decide) rfl).2.2.2⟩

/-- C2.  Verifying a token freshly minted from an identifier with the shared
secret, before `max_age` has elapsed, succeeds and returns the original
identifier. -/
theorem C2_mint_verify_roundtrip (secret ident : String) (ts maxAge now : Nat)
    (h : now - ts ≤ maxAge) :
    verify secret maxAge now (mint secret ident ts) = .ok ident :=
  verify_mint_fresh secret ident ts maxAge now h

/-- C2, witness: secret `"k"`, identifier `"u"`, minted at `0`, verified at
`5` with `max_age = 600`. -/
theorem C2_witness :
    verify "k" 600 5 (mint "k" "u" 0) = .ok "u" ∧ 5 - 0 ≤ 600 :=
  ⟨C2_mint_verify_roundtrip "k" "u" 0 600 5 (by decide), by decide⟩

/-- C3.  (1) Once the elapsed time since the embedded timestamp exceeds
`max_age`, verification of a (correctly signed) token fails with `Expired`;
(2) any token that is not correctly signed — its signature part does not equal
the MAC recomputed over its payload bytes — fails with `InvalidSignature`
(a token that is both stale and tampered fails the signature check first, as
in `itsdangerous`); (3) in particular, `callback` with the arbitrary unsigned
state string `"garbage"` is rejected with a 401, whatever the store and the
code parameter. -/
theorem C3_expired_and_tampered :
    (∀ (secret ident : String) (ts maxAge now : Nat), maxAge < now - ts →
      verify secret maxAge now (mint secret ident ts) = .error .expired) ∧
    (∀ (secret token : String) (maxAge now : Nat), ¬ correctlySigned secret token →
      verify secret maxAge now token = .error .invalidSignature) ∧
    (∀ (cfg : Config) (now : Nat) (code : String)
      (ex : String → Except String (Option String)) (st : Store), code ≠ "" →
      callback cfg now "garbage" code ex st =
        (.error ⟨401, "Invalid or expired state"⟩, st)) := by
  refine ⟨?_, ?_, ?_⟩
  · intro secret ident ts maxAge now h
    rw [verify_mint, if_pos h]
  · intro secret token maxAge now h
    exact verify_not_signed secret maxAge now token h
  · intro cfg now code ex st hc
    exact callback_invalid (by decide) hc rfl

/-- C3, witness: a token minted at time `0` verified at time `601` with
`max_age = 600` is `Expired`; the one-character token `"g"` is not correctly
signed and is `InvalidSignature`; `callback` with `state = "garbage"`,
`code = "x"` returns the 401. -/
theorem C3_witness :
    verify "k" 600 601 (mint "k" "u" 0) = .error .expired ∧
    verify "k" 600 0 "g" = .error .invalidSignature ∧
    callback cfg0 0 "garbage" "x" exNone [] =
      (.error ⟨401, "Invalid or expired state"⟩, []) := by
  refine ⟨C3_expired_and_tampered.1 "k" "u" 0 600 601 (by decide),
    C3_expired_and_tampered.2.1 "k" "g" 600 0 ?_,
    C3_expired_and_tampered.2.2 cfg0 0 "x" exNone [] (by decide)⟩
  rintro ⟨pl, hpl⟩
  cases pl with
  | nil => simp at hpl
  | cons c pl' => simp at hpl

/-- C4.  (1) For every store and session id (spaces cannot occur in a minted
id) whose Secret Record still holds the sentinel `"null"`, the Verify step
fails with 401 "access_token not found" even though the bearer credential is
present and well-formed; (2) in particular, `check-authorization` immediately
after `authorize` (before any callback) returns that 401. -/
theorem C4_sentinel_unauthorized :
    (∀ (st : Store) (sid : String), ' ' ∉ sid.data →
      Store.lookup st sid = some "null" →
      authCheck st (some ("Bearer " ++ sid)) =
        .error ⟨401, "Unauthorized: access_token not found"⟩) ∧
    (∀ (cfg : Config) (uuid : String) (ts : Nat), ' ' ∉ uuid.data →
      check_authorization (authorize cfg uuid ts []).2
          (some ("Bearer " ++ mint cfg.secretKey uuid ts)) =
        .error ⟨401, "Unauthorized: access_token not found"⟩) := by
  constructor
  · intro st sid hsp hl
    rw [authCheck_bearer st sid hsp, resolveSession_sentinel hl]
  · intro cfg uuid ts hsp
    have hst : (authorize cfg uuid ts []).2 = [(mint cfg.secretKey uuid ts, "null")] :=
      congrArg Prod.snd (@authorize_fresh cfg uuid ts [] rfl)
    rw [hst]
    simp only [check_authorization,
      authCheck_bearer _ _ (space_not_mem_mint cfg.secretKey uuid ts hsp),
      resolveSession_sentinel (Store.lookup_cons_self _ _ _)]

/-- C4, witness: a store holding the sentinel under `"s"`, and the
post-`authorize` scenario at UUID `"u"`, time `0`. -/
theorem C4_witness :
    authCheck [("s", "null")] (some "Bearer s") =
      .error ⟨401, "Unauthorized: access_token not found"⟩ ∧
    check_authorization (authorize cfg0 "u" 0 []).2 (some ("Bearer " ++ sid0)) =
      .error ⟨401, "Unauthorized: access_token not found"⟩ :=
  ⟨C4_sentinel_unauthorized.1 [("s", "null")] "s" (by decide) rfl,
   C4_sentinel_unauthorized.2 cfg0 "u" 0 (by decide)⟩

/-- C5.  A callback request in which `state` is empty (the handler folds an
absent parameter into `""` via `request.args.get(..., "")`) or `code` is
empty fails with the 400 "Missing state or code", for every store, exchange
oracle and value of the other parameter, and leaves the store untouched — no
token verification or store access can influence the outcome. -/
theorem C5_missing_parameter (cfg : Config) (now : Nat) (state code : String)
    (ex : String → Except String (Option String)) (st : Store)
    (h : state = "" ∨ code = "") :
    callback cfg now state code ex st = (.error ⟨400, "Missing state or code"⟩, st) :=
  callback_missing h

/-- C5, witness: a missing `state` with a valid-looking `code` against a
populated store, and a missing `code` with a verifiable `state`. -/
theorem C5_witness :
    callback cfg0 0 "" "validcode" exTok1 [(sid0, "null")] =
      (.error ⟨400, "Missing state or code"⟩, [(sid0, "null")]) ∧
    callback cfg0 0 sid0 "" exTok1 [(sid0, "null")] =
      (.error ⟨400, "Missing state or code"⟩, [(sid0, "null")]) :=
  ⟨C5_missing_parameter cfg0 0 "" "validcode" exTok1 [(sid0, "null")] (Or.inl rfl),
   C5_missing_parameter cfg0 0 sid0 "" exTok1 [(sid0, "null")] (Or.inr rfl)⟩

/-- C6, counterexample.  The claim says the code-for-token exchange fails
with `UpstreamExchangeFailed` on any response error, including a response
carrying no access token, and that only a successful exchange proceeds to the
store write.  In the code the response is never checked: with a session
record present and an exchange response carrying no access token, `callback`
proceeds to `put_secret_value` with a `None` value and fails with the 500
"AWS Secret update failed" store error — not with the 401
"GitHub access token fetch failed" exchange error. -/
theorem C6_counterexample :
    (callback cfg0 0 sid0 "c" exNone [(sid0, "null")]).1 =
      .error ⟨500, "AWS Secret update failed - Parameter validation failed: Invalid type for parameter SecretString"⟩ := by
  rw [callback_after_verify (show sid0 ≠ "" from mint_ne_empty "k" "u" 0) (by decide)
    (show verify cfg0.secretKey 600 0 sid0 = .ok "u" from
      verify_mint_fresh "k" "u" 0 600 0 (by decide))
    (Store.lookup_cons_self sid0 "null" [])]
  rfl

/-- C6, amended.  For a callback that reaches the exchange step (both
parameters present, `state` verifies, record present): a transport error in
the exchange fails with the 401 "GitHub access token fetch failed" error; a
response carrying no access token is *not* detected at the exchange step —
the flow proceeds to the store write, which rejects the absent value with the
500 "AWS Secret update failed" error; only a response carrying an access
token persists it into the Secret Record. -/
theorem C6_amended (cfg : Config) (now : Nat) (state code : String)
    (ex : String → Except String (Option String)) (st : Store) (v idv : String)
    (hs : state ≠ "") (hc : code ≠ "")
    (hv : verify cfg.secretKey 600 now state = .ok idv)
    (hl : Store.lookup st state = some v) :
    (∀ e, ex code = .error e →
      callback cfg now state code ex st =
        (.error ⟨401, "GitHub access token fetch failed - " ++ e⟩, st)) ∧
    (ex code = .ok none →
      callback cfg now state code ex st =
        (.error ⟨500, "AWS Secret update failed - Parameter validation failed: Invalid type for parameter SecretString"⟩, st)) ∧
    (∀ tok, ex code = .ok (some tok) →
      callback cfg now state code ex st =
        (.ok "Authorization complete. Feel free to return to VSCode.",
          Store.set st state tok)) := by
  refine ⟨?_, ?_, ?_⟩
  · intro e hex
    rw [callback_after_verify hs hc hv hl, hex]
  · intro hex
    rw [callback_after_verify hs hc hv hl, hex]
  · intro tok hex
    rw [callback_after_verify hs hc hv hl, hex]

/-- C6, witness for the amended theorem: a transport error `"boom"` with the
session record present. -/
theorem C6_amended_witness :
    callback cfg0 0 sid0 "c" exErr [(sid0, "null")] =
      (.error ⟨401, "GitHub access token fetch failed - boom"⟩, [(sid0, "null")]) :=
  (C6_amended cfg0 0 sid0 "c" exErr [(sid0, "null")] "null" "u"
    (mint_ne_empty "k" "u" 0) (by decide)
    (verify_mint_fresh "k" "u" 0 600 0 (by decide))
    (Store.lookup_cons_self sid0 "null" [])).1 "boom" rfl

/-- C7.  For a verified session, `GET /repos/{owner}/{repo}/files` first
calls the repository-info endpoint without authentication, then the
branch-info endpoint for the discovered default branch with the resolved
access token as bearer, and returns the tip commit sha as the body; an error
or missing field in either upstream response yields a 500 carrying the
underlying message; with stubbed upstream responses `default_branch = "main"`
and sha `"abc123"` the body is `"abc123"`. -/
theorem C7_get_repo :
    (∀ (api : GithubApi) (st : Store) (ah : Option String)
      (owner repo tok branch sha : String),
      authCheck st ah = .ok tok →
      api.repoGet ("https://api.github.com/repos/" ++ owner ++ "/" ++ repo) =
        .ok (some branch) →
      api.branchGet ("https://api.github.com/repos/" ++ owner ++ "/" ++ repo
          ++ "/branches/" ++ branch) ("Bearer " ++ tok) = .ok (some sha) →
      get_repo api st ah owner repo = .ok sha) ∧
    (∀ (api : GithubApi) (st : Store) (ah : Option String) (owner repo tok e : String),
      authCheck st ah = .ok tok →
      api.repoGet ("https://api.github.com/repos/" ++ owner ++ "/" ++ repo) =
        .error e →
      get_repo api st ah owner repo =
        .error ⟨500, "GitHub repo fetch failed - " ++ e⟩) ∧
    (∀ (api : GithubApi) (st : Store) (ah : Option String) (owner repo tok : String),
      authCheck st ah = .ok tok →
      api.repoGet ("https://api.github.com/repos/" ++ owner ++ "/" ++ repo) =
        .ok none →
      get_repo api st ah owner repo =
        .error ⟨500, "GitHub repo fetch failed - KeyError: default_branch"⟩) ∧
    (∀ (api : GithubApi) (st : Store) (ah : Option String)
      (owner repo tok branch e : String),
      authCheck st ah = .ok tok →
      api.repoGet ("https://api.github.com/repos/" ++ owner ++ "/" ++ repo) =
        .ok (some branch) →
      api.branchGet ("https://api.github.com/repos/" ++ owner ++ "/" ++ repo
          ++ "/branches/" ++ branch) ("Bearer " ++ tok) = .error e →
      get_repo api st ah owner repo =
        .error ⟨500, "GitHub repo fetch failed - " ++ e⟩) ∧
    (∀ (api : GithubApi) (st : Store) (ah : Option String)
      (owner repo tok branch : String),
      authCheck st ah = .ok tok →
      api.repoGet ("https://api.github.com/repos/" ++ owner ++ "/" ++ repo) =
        .ok (some branch) →
      api.branchGet ("https://api.github.com/repos/" ++ owner ++ "/" ++ repo
          ++ "/branches/" ++ branch) ("Bearer " ++ tok) = .ok none →
      get_repo api st ah owner repo =
        .error ⟨500, "GitHub repo fetch failed - KeyError: commit"⟩) ∧
    get_repo stubApi [("s", "tok123")] (some "Bearer s") "acme" "widgets" =
      .ok "abc123" := by
  refine ⟨?_, ?_, ?_, ?_, ?_, rfl⟩ <;> intro api st ah owner repo tok
  · intro branch sha h1 h2 h3
    simp only [get_repo, h1, h2, h3]
  · intro e h1 h2
    simp only [get_repo, h1, h2]
  · intro h1 h2
    simp only [get_repo, h1, h2]
  · intro branch e h1 h2 h3
    simp only [get_repo, h1, h2, h3]
  · intro branch h1 h2 h3
    simp only [get_repo, h1, h2, h3]

/-- C7, witness: the success path at the stubbed API and a verified session. -/
theorem C7_witness :
    get_repo stubApi [("s", "tok123")] (some "Bearer s") "acme" "widgets" =
      .ok "abc123" ∧
    authCheck [("s", "tok123")] (some "Bearer s") = .ok "tok123" :=
  ⟨C7_get_repo.1 stubApi [("s", "tok123")] (some "Bearer s") "acme" "widgets"
      "tok123" "main" "abc123" rfl rfl rfl, rfl⟩

/-- C8, counterexample.  The claim says a Secret Record's value is changed at
most once, from the sentinel to a real access token.  In the code a second
callback with the same (still unexpired) state token and a fresh code
overwrites the record again: after `authorize`, a first callback exchanging
for `"tok1"` and a second exchanging for `"tok2"`, the record under `sid0`
has held three successive values `"null"`, `"tok1"`, `"tok2"` — two changes,
the second from one real token to another. -/
theorem C8_counterexample :
    Store.lookup (runOps cfg0 [] [.authorizeOp "u" 0]) sid0 = some "null" ∧
    Store.lookup (runOps cfg0 []
      [.authorizeOp "u" 0, .callbackOp 0 sid0 "c1" exTok1]) sid0 = some "tok1" ∧
    Store.lookup (runOps cfg0 []
      [.authorizeOp "u" 0, .callbackOp 0 sid0 "c1" exTok1,
        .callbackOp 0 sid0 "c2" exTok2]) sid0 = some "tok2" ∧
    ("tok1" : String) ≠ "tok2" := by
  have h1 : stepStore cfg0 [] (.authorizeOp "u" 0) = [(sid0, "null")] :=
    congrArg Prod.snd (@authorize_fresh cfg0 "u" 0 [] rfl)
  have hcb1 : callback cfg0 0 sid0 "c1" exTok1 [(sid0, "null")] =
      (.ok "Authorization complete. Feel free to return to VSCode.",
        [(sid0, "tok1")]) := by
    rw [callback_after_verify (show sid0 ≠ "" from mint_ne_empty "k" "u" 0) (by decide)
      (show verify cfg0.secretKey 600 0 sid0 = .ok "u" from
        verify_mint_fresh "k" "u" 0 600 0 (by decide))
      (Store.lookup_cons_self sid0 "null" [])]
    simp only [exTok1, Store.set_cons_self]
    rfl
  have hcb2 : callback cfg0 0 sid0 "c2" exTok2 [(sid0, "tok1")] =
      (.ok "Authorization complete. Feel free to return to VSCode.",
        [(sid0, "tok2")]) := by
    rw [callback_after_verify (show sid0 ≠ "" from mint_ne_empty "k" "u" 0) (by decide)
      (show verify cfg0.secretKey 600 0 sid0 = .ok "u" from
        verify_mint_fresh "k" "u" 0 600 0 (by decide))
      (Store.lookup_cons_self sid0 "tok1" [])]
    simp only [exTok2, Store.set_cons_self]
    rfl
  have h2 : stepStore cfg0 [(sid0, "null")] (.callbackOp 0 sid0 "c1" exTok1) =
      [(sid0, "tok1")] := congrArg Prod.snd hcb1
  have h3 : stepStore cfg0 [(sid0, "tok1")] (.callbackOp 0 sid0 "c2" exTok2) =
      [(sid0, "tok2")] := congrArg Prod.snd hcb2
  refine ⟨?_, ?_, ?_, by decide⟩
  · rw [show runOps cfg0 [] [.authorizeOp "u" 0] =
        stepStore cfg0 [] (.authorizeOp "u" 0) from rfl, h1]
    exact Store.lookup_cons_self _ _ _
  · rw [show runOps cfg0 [] [.authorizeOp "u" 0, .callbackOp 0 sid0 "c1" exTok1] =
        stepStore cfg0 (stepStore cfg0 [] (.authorizeOp "u" 0))
          (.callbackOp 0 sid0 "c1" exTok1) from rfl, h1, h2]
    exact Store.lookup_cons_self _ _ _
  · rw [show runOps cfg0 []
          [.authorizeOp "u" 0, .callbackOp 0 sid0 "c1" exTok1,
            .callbackOp 0 sid0 "c2" exTok2] =
        stepStore cfg0 (stepStore cfg0 (stepStore cfg0 [] (.authorizeOp "u" 0))
          (.callbackOp 0 sid0 "c1" exTok1)) (.callbackOp 0 sid0 "c2" exTok2) from rfl,
      h1, h2, h3]
    exact Store.lookup_cons_self _ _ _

/-- C8, amended.  Over every sequence of initiate / callback / verify
operations: every Secret Record is created holding the sentinel `"null"` (an
`authorize` step either leaves the store unchanged or adds exactly its new
record with value `"null"`); no operation ever deletes a record; `authorize`
and the Verify step never change an existing record's value; only a callback
step changes a value, only under its `state` key, and only to an access token
returned by a successful exchange — but such overwrites may happen on *every*
successful callback, not at most once. -/
theorem C8_amended :
    (∀ (cfg : Config) (uuid : String) (now : Nat) (st : Store),
      (authorize cfg uuid now st).2 = st ∨
        (authorize cfg uuid now st).2 = (mint cfg.secretKey uuid now, "null") :: st) ∧
    (∀ (cfg : Config) (st : Store) (op : Op) (k v : String),
      Store.lookup st k = some v →
      ∃ w, Store.lookup (stepStore cfg st op) k = some w) ∧
    (∀ (cfg : Config) (uuid : String) (now : Nat) (st : Store) (k v : String),
      Store.lookup st k = some v →
      Store.lookup (stepStore cfg st (.authorizeOp uuid now)) k = some v) ∧
    (∀ (cfg : Config) (st : Store) (ah : Option String) (k : String),
      Store.lookup (stepStore cfg st (.checkOp ah)) k = Store.lookup st k) ∧
    (∀ (cfg : Config) (now : Nat) (state code : String)
      (ex : String → Except String (Option String)) (st : Store) (k v : String),
      k ≠ state → Store.lookup st k = some v →
      Store.lookup (stepStore cfg st (.callbackOp now state code ex)) k = some v) ∧
    (∀ (cfg : Config) (now : Nat) (state code : String)
      (ex : String → Except String (Option String)) (st : Store),
      (callback cfg now state code ex st).2 = st ∨
        ∃ tok, ex code = .ok (some tok) ∧ Store.lookup st state ≠ none ∧
          (callback cfg now state code ex st).2 = Store.set st state tok) := by
  refine ⟨?_, ?_, ?_, ?_, ?_, ?_⟩
  · intro cfg uuid now st
    rcases authorize_snd cfg uuid now st with h | ⟨_, h⟩
    · exact Or.inl h
    · exact Or.inr h
  · intro cfg st op k v h
    exact stepStore_never_deletes cfg st op h
  · intro cfg uuid now st k v h
    exact authorize_preserves h
  · intro cfg st ah k
    rfl
  · intro cfg now state code ex st k v hk h
    exact callback_preserves_other hk h
  · intro cfg now state code ex st
    exact callback_snd cfg now state code ex st

/-- C8, witness for the amended theorem: an `authorize` step and a callback
step against a store holding a record under `"s"` both preserve it. -/
theorem C8_amended_witness :
    Store.lookup (stepStore cfg0 [("s", "v")] (.authorizeOp "u" 0)) "s" = some "v" ∧
    Store.lookup (stepStore cfg0 [("s", "v")] (.callbackOp 0 "t" "c" exTok1)) "s" =
      some "v" :=
  ⟨C8_amended.2.2.1 cfg0 "u" 0 [("s", "v")] "s" "v" rfl,
   C8_amended.2.2.2.2.1 cfg0 0 "t" "c" exTok1 [("s", "v")] "s" "v" (by decide) rfl⟩

/-- C9.  For every successful `POST /authorize`, the `session_id` in the JSON
body, the `state` query parameter embedded in the returned `redirect_url`
(the suffix after `&state=`), and the key under which the Secret Record is
created are all the same string: the full signed token minted from the fresh
UUID, which differs from the bare UUID itself. -/
theorem C9_session_id_is_full_token (cfg : Config) (uuid : String) (ts : Nat)
    (st st' : Store) (r : AuthorizeOk)
    (h : authorize cfg uuid ts st = (.ok r, st')) :
    r.session_id = mint cfg.secretKey uuid ts ∧
    r.redirect_url = "https://github.com/login/oauth/authorize?client_id="
        ++ cfg.githubClientId ++ "&redirect_uri=" ++ urlquote cfg.callbackUrl
        ++ "&scope=public_repo&state=" ++ r.session_id ∧
    st' = (r.session_id, "null") :: st ∧
    r.session_id ≠ uuid := by
  obtain ⟨h1, h2, h3⟩ := authorize_ok_inv h
  refine ⟨h1, h2, h3, ?_⟩
  rw [h1]
  exact mint_ne_ident _ _ _

/-- C9, witness: the session created with UUID `"u"` at time `0` on an empty
store. -/
theorem C9_witness :
    authorize cfg0 "u" 0 [] = (.ok w9r, [(sid0, "null")]) ∧
    w9r.session_id = mint cfg0.secretKey "u" 0 ∧
    w9r.session_id ≠ "u" := by
  have h : authorize cfg0 "u" 0 [] = (.ok w9r, [(sid0, "null")]) :=
    @authorize_fresh cfg0 "u" 0 [] rfl
  exact ⟨h, (C9_session_id_is_full_token cfg0 "u" 0 [] [(sid0, "null")] w9r h).1,
    (C9_session_id_is_full_token cfg0 "u" 0 [] [(sid0, "null")] w9r h).2.2.2⟩

/-- C10.  For every `Authorization` header beginning with `"Bearer "`, the
Verify step uses exactly the second space-separated segment as the session id
for the store lookup — any further segments are ignored — and the header
`"Bearer "` itself is not rejected as a missing credential: it proceeds to a
lookup under the empty string, which fails with the 401 "Unauthorized: AWS
Secret fetch failed" error. -/
theorem C10_bearer_second_segment :
    (∀ (st : Store) (sid : String), ' ' ∉ sid.data →
      authCheck st (some ("Bearer " ++ sid)) = resolveSession st sid) ∧
    (∀ (st : Store) (sid extra : String), ' ' ∉ sid.data →
      authCheck st (some ("Bearer " ++ sid ++ " " ++ extra)) = resolveSession st sid) ∧
    (∀ st : Store, Store.lookup st "" = none →
      authCheck st (some "Bearer ") =
        .error ⟨401, "Unauthorized: AWS Secret fetch failed - ResourceNotFoundException"⟩) := by
  refine ⟨authCheck_bearer, authCheck_bearer_extra, ?_⟩
  intro st h
  rw [authCheck_bearer_empty, resolveSession_absent h]

/-- C10, witness: a header with a trailing third segment resolves the second
segment `"abc"`, and the bare header `"Bearer "` reaches the store lookup
under `""`. -/
theorem C10_witness :
    authCheck [("abc", "tok123")] (some "Bearer abc junk") =
      resolveSession [("abc", "tok123")] "abc" ∧
    authCheck [] (some "Bearer ") =
      .error ⟨401, "Unauthorized: AWS Secret fetch failed - ResourceNotFoundException"⟩ :=
  ⟨C10_bearer_second_segment.2.1 [("abc", "tok123")] "abc" "junk" (by decide),
   C10_bearer_second_segment.2.2 [] rfl⟩

end RepoView
